import Mathlib

/-!
Shallow embedding of `src/coffee.py`, a single-file analytics dashboard over a
tabular coffee-consumption dataset.  The pandas DataFrame is modelled as a
`List Record`; Python floats are modelled as exact rationals (`ℚ`), with the
Python idiom `x or d` on a float modelled on `Option ℚ` (where `none` stands
for NaN, which is truthy in Python).  Each definition mirrors one expression of
the source; names follow the source's variable names where Lean allows it.
-/

namespace Coffee

/-- Stress level, a three-valued categorical column (`Stress_Level`); the
source maps it through the dict `{'Low':1,'Medium':2,'High':3}` (line 46). -/
inductive StressLevel where
  | low
  | medium
  | high
deriving DecidableEq

/-- One CSV row, with the columns the source reads.  Numeric columns that
pandas holds as floats are modelled as `ℚ`; `Age` is an integer. -/
structure Record where
  country : String
  gender : String
  age : ℤ
  occupation : String
  coffeeIntake : ℚ
  sleepHours : ℚ
  stressLevel : StressLevel
  heartRate : ℚ
  bmi : ℚ
  smoking : String
  alcoholConsumption : String
  physicalActivityHours : ℚ
deriving DecidableEq

/-- `load_data` (lines 21-24): after reading the CSV the loader keeps only rows
whose `Gender` is in `['Male','Female']`. -/
def load_data (rows : List Record) : List Record :=
  rows.filter (fun r => ["Male", "Female"].contains r.gender)

/-- The sidebar selections (lines 32-34): multiselect of countries, multiselect
of genders, and an inclusive age range. -/
structure FilterCriteria where
  countries : List String
  genders : List String
  ageMin : ℤ
  ageMax : ℤ

/-- `filtered_data` (lines 36-39): rows whose country and gender are among the
selected ones and whose age lies in the inclusive range. -/
def filtered_data (d : List Record) (c : FilterCriteria) : List Record :=
  d.filter (fun r =>
    c.countries.contains r.country && c.genders.contains r.gender &&
      decide (c.ageMin ≤ r.age) && decide (r.age ≤ c.ageMax))

/-- `stress_mapping` (line 46): the ordinal encoding of `Stress_Level`. -/
def stress_mapping : StressLevel → ℚ
  | .low => 1
  | .medium => 2
  | .high => 3

/-- Python's built-in `round` to the nearest integer, ties to the even
integer (banker's rounding), on exact rationals. -/
def pyRound (x : ℚ) : ℤ :=
  if x - ⌊x⌋ < 1/2 then ⌊x⌋
  else if 1/2 < x - ⌊x⌋ then ⌊x⌋ + 1
  else if 2 ∣ ⌊x⌋ then ⌊x⌋ else ⌊x⌋ + 1

/-- Python's `round(x, 2)`: round to 2 decimal places. -/
def round2 (x : ℚ) : ℚ := (pyRound (x * 100) : ℚ) / 100

/-- pandas `Series.mean()`: sum divided by length (division by zero in `ℚ`
yields 0; the source only takes means of non-empty groups). -/
def mean (l : List ℚ) : ℚ := l.sum / (l.length : ℚ)

/-- The four KPI metrics of tab 1 (lines 60-63). -/
structure KPI where
  coffee : ℚ
  sleep : ℚ
  stress : ℚ
  bmi : ℚ
deriving DecidableEq

/-- Tab 1 (lines 60-63): mean coffee intake, sleep hours, stress index and BMI
over the filtered view, each passed through `round(·, 2)`. -/
def kpi (rs : List Record) : KPI :=
  ⟨round2 (mean (rs.map (·.coffeeIntake))),
   round2 (mean (rs.map (·.sleepHours))),
   round2 (mean (rs.map (fun r => stress_mapping r.stressLevel))),
   round2 (mean (rs.map (·.bmi)))⟩

/-- The selectable health metric of tab 2 (line 70). -/
inductive HealthMetric where
  | sleepHours
  | stressIndex
  | heartRate
  | bmi
deriving DecidableEq

/-- `row[health_metric]` for each selectable metric. -/
def metricValue : HealthMetric → Record → ℚ
  | .sleepHours, r => r.sleepHours
  | .stressIndex, r => stress_mapping r.stressLevel
  | .heartRate, r => r.heartRate
  | .bmi, r => r.bmi

/-- One element of `scatter_data` (lines 72-80). -/
structure ScatterPoint where
  value : ℚ × ℚ
  name : String
  symbolSize : ℚ
  color : String
deriving DecidableEq

/-- `scatter_data` (lines 72-80): one point per row of the filtered view, with
coordinates (coffee intake, selected metric), label `Country / Occupation`,
size `max(5, Age/5)`, and a colour keyed by gender. -/
def scatter_data (m : HealthMetric) (rs : List Record) : List ScatterPoint :=
  rs.map (fun r =>
    ⟨(r.coffeeIntake, metricValue m r),
     r.country ++ " / " ++ r.occupation,
     max 5 ((r.age : ℚ) / 5),
     if r.gender = "Male" then "#FF5722" else "#2196F3"⟩)

/-- The distinct countries of the view, in ascending order: pandas `groupby`
sorts the group keys. -/
def countryKeys (rs : List Record) : List String :=
  ((rs.map (·.country)).dedup).insertionSort (· ≤ ·)

/-- `country_avg` (line 97): mean coffee intake per country of the view. -/
def country_avg (rs : List Record) : List (String × ℚ) :=
  (countryKeys rs).map (fun c =>
    (c, mean ((rs.filter (fun r => r.country == c)).map (·.coffeeIntake))))

/-- `country_name_map` (lines 100-104) applied with `.get(x, x)` (line 107):
three fixed aliases, identity everywhere else. -/
def country_name_map (c : String) : String :=
  if c = "USA" then "United States"
  else if c = "UK" then "United Kingdom"
  else if c = "South Korea" then "Korea, Rep."
  else c

/-- `data_list` (lines 106-110): remapped country name with the per-country
mean rounded to 2 decimals. -/
def data_list (rs : List Record) : List (String × ℚ) :=
  (country_avg rs).map (fun p => (country_name_map p.1, round2 p.2))

/-- Python's `x or d` on a float: NaN (`none`) is truthy and propagates, `0.0`
is falsy and is replaced by the default, every other float is returned. -/
def pyOrFloat (x : Option ℚ) (d : ℚ) : Option ℚ :=
  match x with
  | none => none
  | some q => if q = 0 then some d else some q

/-- `min_val` (line 127): `float(country_avg['Coffee_Intake'].min() or 0)`.
`Series.min()` of an empty series is NaN (`none`). -/
def min_val (rs : List Record) : Option ℚ :=
  pyOrFloat ((country_avg rs).map Prod.snd).min? 0

/-- `max_val` (line 128): `float(country_avg['Coffee_Intake'].max() or 1)`. -/
def max_val (rs : List Record) : Option ℚ :=
  pyOrFloat ((country_avg rs).map Prod.snd).max? 1

/-- Lexicographic order on pairs of strings, the order in which pandas sorts
the keys of a two-column `groupby`. -/
def pairLe (a b : String × String) : Prop :=
  a.1 < b.1 ∨ (a.1 = b.1 ∧ a.2 ≤ b.2)

instance : DecidableRel pairLe := fun a b =>
  decidable_of_iff (a.1 < b.1 ∨ (a.1 = b.1 ∧ a.2 ≤ b.2)) Iff.rfl

/-- The distinct (occupation, gender) pairs of the view, sorted. -/
def occupationKeys (rs : List Record) : List (String × String) :=
  ((rs.map (fun r => (r.occupation, r.gender))).dedup).insertionSort pairLe

/-- `occupation_avg` / `data_bar` (lines 149-151): one bar per
(occupation, gender) group, labelled `Occupation (Gender)`, valued by the
rounded mean coffee intake of the group. -/
def data_bar (rs : List Record) : List (String × ℚ) :=
  (occupationKeys rs).map (fun k =>
    (k.1 ++ " (" ++ k.2 ++ ")",
     round2 (mean ((rs.filter (fun r =>
       r.occupation == k.1 && r.gender == k.2)).map (·.coffeeIntake)))))

/-- The selectable habit variable of tab 4 (line 161). -/
inductive Habit where
  | smoking
  | alcoholConsumption
  | physicalActivityHours
deriving DecidableEq

/-- `pd.cut(..., bins=[0,2,4,6,24], labels=["0-2h","2-4h","4-6h","6h+"])`
(line 163).  `pd.cut` defaults to `right=True`, so the intervals are
left-open and right-closed: (0,2], (2,4], (4,6], (6,24]; a value outside
(0,24] gets no bin (NaN). -/
def activityBin (x : ℚ) : Option String :=
  if 0 < x ∧ x ≤ 2 then some "0-2h"
  else if 2 < x ∧ x ≤ 4 then some "2-4h"
  else if 4 < x ∧ x ≤ 6 then some "4-6h"
  else if 6 < x ∧ x ≤ 24 then some "6h+"
  else none

/-- `x_var` of lines 162-166: the grouping key per habit choice; the
continuous activity hours go through the bins, the other two columns are used
as-is.  `none` is a NaN key, which `groupby` drops. -/
def habitKey : Habit → Record → Option String
  | .smoking, r => some r.smoking
  | .alcoholConsumption, r => some r.alcoholConsumption
  | .physicalActivityHours, r => activityBin r.physicalActivityHours

/-- The distinct (habit key, gender) pairs occurring in the view, sorted;
rows whose habit key is NaN contribute no pair. -/
def boxKeys (hb : Habit) (rs : List Record) : List (String × String) :=
  ((rs.filterMap (fun r =>
    (habitKey hb r).map (fun k => (k, r.gender)))).dedup).insertionSort pairLe

/-- The rows of each (habit key, gender) group of line 168. -/
def boxGroupRows (hb : Habit) (rs : List Record) :
    List ((String × String) × List Record) :=
  (boxKeys hb rs).map (fun k =>
    (k, rs.filter (fun r => habitKey hb r == some k.1 && r.gender == k.2)))

/-- `habits` (lines 168-173): per (habit key, gender) group, the label
`key (Gender)` and the list of the group's coffee intakes, for the boxplot. -/
def habits (hb : Habit) (rs : List Record) : List (String × List ℚ) :=
  (boxGroupRows hb rs).map (fun g =>
    (g.1.1 ++ " (" ++ g.1.2 ++ ")", g.2.map (·.coffeeIntake)))

/-- The distinct ages of the view in ascending order (pandas `groupby` sorts
its keys). -/
def ageKeys (rs : List Record) : List ℤ :=
  ((rs.map (·.age)).dedup).insertionSort (· ≤ ·)

/-- `age_trend` (line 182): per distinct age, the mean coffee intake and the
mean sleep hours of the rows of that age. -/
def age_trend (rs : List Record) : List (ℤ × ℚ × ℚ) :=
  (ageKeys rs).map (fun a =>
    (a, mean ((rs.filter (fun r => r.age == a)).map (·.coffeeIntake)),
        mean ((rs.filter (fun r => r.age == a)).map (·.sleepHours))))

/-- The x-axis of the line chart (line 186): the ages. -/
def trendAges (rs : List Record) : List ℤ :=
  (age_trend rs).map (·.1)

/-- The coffee series of line 189, rounded to 2 decimals. -/
def trendCoffeeSeries (rs : List Record) : List ℚ :=
  (age_trend rs).map (fun t => round2 t.2.1)

/-- The sleep series of line 190, rounded to 2 decimals. -/
def trendSleepSeries (rs : List Record) : List ℚ :=
  (age_trend rs).map (fun t => round2 t.2.2)

/-- Everything the five tabs compute from a non-empty filtered view. -/
structure Outputs where
  kpiOut : KPI
  scatter : List ScatterPoint
  mapData : List (String × ℚ)
  mapMin : Option ℚ
  mapMax : Option ℚ
  bar : List (String × ℚ)
  box : List (String × List ℚ)
  ages : List ℤ
  coffeeTrend : List ℚ
  sleepTrend : List ℚ

/-- The whole interaction (lines 36-193): filter, stop with a warning when the
view is empty (`st.stop()`, line 43, modelled as `none`), otherwise compute
every tab's data. -/
def runPipeline (d : List Record) (c : FilterCriteria) (m : HealthMetric)
    (hb : Habit) : Option Outputs :=
  let fv := filtered_data d c
  if fv.isEmpty then none
  else some ⟨kpi fv, scatter_data m fv, data_list fv, min_val fv, max_val fv,
             data_bar fv, habits hb fv, trendAges fv, trendCoffeeSeries fv,
             trendSleepSeries fv⟩

/-! ### Fixtures

The 3-record scenario of the specification (§8): `(US,Male,25,3cups)`,
`(US,Female,45,5cups)`, `(UK,Male,70,1cup)`; fields the scenario leaves open
are filled with arbitrary values. -/

/-- Fixture record: US, Male, age 25, 3 cups/day. -/
def recUS1 : Record :=
  ⟨"US", "Male", 25, "Engineer", 3, 7, .low, 70, 22, "No", "No", 1⟩

/-- Fixture record: US, Female, age 45, 5 cups/day. -/
def recUS2 : Record :=
  ⟨"US", "Female", 45, "Doctor", 5, 6, .medium, 72, 24, "No", "Yes", 2⟩

/-- Fixture record: UK, Male, age 70, 1 cup/day. -/
def recUK3 : Record :=
  ⟨"UK", "Male", 70, "Retired", 1, 8, .low, 65, 26, "No", "No", 3⟩

/-- The 3-record fixture dataset. -/
def fixtureData : List Record := [recUS1, recUS2, recUK3]

/-- All countries and genders of the fixture, age range 20-60. -/
def fixtureCriteria : FilterCriteria := ⟨["US", "UK"], ["Male", "Female"], 20, 60⟩

/-- Criteria whose country multiselect is empty. -/
def emptyCountriesCriteria : FilterCriteria := ⟨[], ["Male", "Female"], 20, 60⟩

/-- A record whose physical activity hours are exactly 0. -/
def recActZero : Record :=
  ⟨"US", "Male", 30, "Engineer", 2, 7, .low, 70, 22, "No", "No", 0⟩

/-- A record whose coffee intake is exactly 0 cups/day. -/
def recCoffeeZero : Record :=
  ⟨"US", "Male", 30, "Engineer", 0, 7, .low, 70, 22, "No", "No", 1⟩

/-! ### Helper lemmas -/

/-- The sorted distinct countries are exactly the countries occurring in the
view. -/
theorem mem_countryKeys (rs : List Record) (c : String) :
    c ∈ countryKeys rs ↔ ∃ r ∈ rs, r.country = c := by
  unfold countryKeys
  rw [(List.perm_insertionSort _ _).mem_iff, List.mem_dedup, List.mem_map]

/-- A non-empty view has at least one distinct country. -/
theorem countryKeys_ne_nil (rs : List Record) (h : rs ≠ []) :
    countryKeys rs ≠ [] := by
  unfold countryKeys
  intro hc
  have hp := List.perm_insertionSort (α := String) (· ≤ ·) ((rs.map (·.country)).dedup)
  rw [hc] at hp
  have h2 : (rs.map (·.country)).dedup = [] := hp.symm.eq_nil
  rw [List.dedup_eq_nil] at h2
  exact h (List.map_eq_nil_iff.mp h2)

/-- The sorted distinct ages are exactly the ages occurring in the view. -/
theorem mem_ageKeys (rs : List Record) (a : ℤ) :
    a ∈ ageKeys rs ↔ ∃ r ∈ rs, r.age = a := by
  unfold ageKeys
  rw [(List.perm_insertionSort _ _).mem_iff, List.mem_dedup, List.mem_map]

/-- The distinct ages are strictly increasing. -/
theorem ageKeys_sorted_lt (rs : List Record) : (ageKeys rs).Sorted (· < ·) := by
  have h1 : (ageKeys rs).Sorted (· ≤ ·) := List.sorted_insertionSort _ _
  have h2 : (ageKeys rs).Nodup :=
    ((List.perm_insertionSort _ _).nodup_iff).mpr (List.nodup_dedup _)
  exact h1.lt_of_le h2

/-- The x-axis of the trend chart is the sorted distinct age list. -/
theorem trendAges_eq_ageKeys (rs : List Record) : trendAges rs = ageKeys rs := by
  unfold trendAges age_trend
  rw [List.map_map]
  exact List.map_id _

/-- Unfolding `pyOrFloat` on a non-NaN float. -/
theorem pyOrFloat_some (q d : ℚ) :
    pyOrFloat (some q) d = if q = 0 then some d else some q := rfl

/-! ### Claims -/

/-- C1: for every dataset and every `FilterCriteria`, a record of the dataset
is in the filtered view iff its country is among the selected countries, its
gender among the selected genders, and its age lies in the inclusive range;
in particular no record outside the view satisfies all three conditions. -/
theorem filtered_data_mem_iff (d : List Record) (c : FilterCriteria)
    (r : Record) (hr : r ∈ d) :
    r ∈ filtered_data d c ↔
      (r.country ∈ c.countries ∧ r.gender ∈ c.genders ∧
        c.ageMin ≤ r.age ∧ r.age ≤ c.ageMax) := by
  simp [filtered_data, List.mem_filter, hr, and_assoc]

/-- Witness for C1: the 25-year-old US male of the fixture passes the fixture
criteria. -/
theorem filtered_data_mem_iff_witness :
    recUS1 ∈ filtered_data fixtureData fixtureCriteria ↔
      (recUS1.country ∈ fixtureCriteria.countries ∧
        recUS1.gender ∈ fixtureCriteria.genders ∧
        fixtureCriteria.ageMin ≤ recUS1.age ∧
        recUS1.age ≤ fixtureCriteria.ageMax) :=
  filtered_data_mem_iff fixtureData fixtureCriteria recUS1 (by simp [fixtureData])

/-- C2 counterexample: `pd.cut` defaults to right-closed intervals, so a
record with activity hours exactly 6.0 falls in bin "4-6h", not in "6h+" as
the claim states. -/
theorem activityBin_six_counterexample :
    activityBin 6 = some "4-6h" ∧ ¬ activityBin 6 = some "6h+" := by
  constructor
  · norm_num [activityBin]
  · norm_num [activityBin]
    decide

/-- C2 amended: the bins are left-open and right-closed, (0,2], (2,4], (4,6],
(6,24].  A record with activity hours 3.5 falls in bin "2-4h"; one with
exactly 6.0 falls in "4-6h"; "6h+" holds exactly the values strictly above 6
and at most 24. -/
theorem activityBin_right_closed :
    activityBin (7/2) = some "2-4h" ∧ activityBin 6 = some "4-6h" ∧
      ∀ x : ℚ, 6 < x → x ≤ 24 → activityBin x = some "6h+" := by
  refine ⟨by norm_num [activityBin], by norm_num [activityBin], fun x h1 h2 => ?_⟩
  unfold activityBin
  rw [if_neg (by rintro ⟨-, h⟩; linarith), if_neg (by rintro ⟨-, h⟩; linarith),
    if_neg (by rintro ⟨-, h⟩; linarith), if_pos ⟨by linarith, h2⟩]

/-- Witness for the amended C2: 7 hours of activity fall in bin "6h+". -/
theorem activityBin_right_closed_witness : activityBin 7 = some "6h+" :=
  activityBin_right_closed.2.2 7 (by norm_num) (by norm_num)

/-- C9: the loader keeps only rows whose gender is exactly "Male" or "Female",
so every record of the loaded dataset — and hence of every filtered view of
it — has gender in {Male, Female}. -/
theorem load_data_gender_invariant (rows : List Record) (c : FilterCriteria)
    (r : Record) :
    (r ∈ load_data rows → r.gender = "Male" ∨ r.gender = "Female") ∧
    (r ∈ filtered_data (load_data rows) c →
      r.gender = "Male" ∨ r.gender = "Female") := by
  have h1 : r ∈ load_data rows → r.gender = "Male" ∨ r.gender = "Female" := by
    intro h
    have h2 := (List.mem_filter.mp h).2
    simpa using h2
  exact ⟨h1, fun h => h1 (List.mem_filter.mp h).1⟩

/-- Witness for C9: the first fixture record survives the loader and its
gender is one of the two kept values. -/
theorem load_data_gender_invariant_witness :
    recUS1.gender = "Male" ∨ recUS1.gender = "Female" :=
  (load_data_gender_invariant fixtureData fixtureCriteria recUS1).1
    (by simp [load_data, fixtureData, recUS1])

/-- C10: a record whose activity hours lie outside (0, 24] — in particular
exactly 0 — receives no bin, is counted in no boxplot group, and so the
groups need not partition the view (a one-record view with activity 0
produces no group at all). -/
theorem activity_bin_exclusion :
    activityBin 0 = none ∧
    (∀ x : ℚ, x ≤ 0 ∨ 24 < x → activityBin x = none) ∧
    (∀ (rs : List Record) (r : Record) (k : String × String)
      (rows : List Record), r ∈ rs →
      activityBin r.physicalActivityHours = none →
      (k, rows) ∈ boxGroupRows .physicalActivityHours rs → r ∉ rows) ∧
    boxGroupRows .physicalActivityHours [recActZero] = [] := by
  have hout : ∀ x : ℚ, x ≤ 0 ∨ 24 < x → activityBin x = none := by
    intro x h
    unfold activityBin
    rcases h with h | h
    · rw [if_neg (by rintro ⟨h1, -⟩; linarith), if_neg (by rintro ⟨h1, -⟩; linarith),
        if_neg (by rintro ⟨h1, -⟩; linarith), if_neg (by rintro ⟨h1, -⟩; linarith)]
    · rw [if_neg (by rintro ⟨-, h2⟩; linarith), if_neg (by rintro ⟨-, h2⟩; linarith),
        if_neg (by rintro ⟨-, h2⟩; linarith), if_neg (by rintro ⟨-, h2⟩; linarith)]
  refine ⟨hout 0 (Or.inl le_rfl), hout, ?_, ?_⟩
  · intro rs r k rows _ hnone hmem hrrows
    unfold boxGroupRows at hmem
    rw [List.mem_map] at hmem
    obtain ⟨k', _, heq⟩ := hmem
    rw [Prod.mk.injEq] at heq
    obtain ⟨hk, hrows⟩ := heq
    subst hrows
    have h3 := (List.mem_filter.mp hrrows).2
    rw [Bool.and_eq_true] at h3
    have h4 := h3.1
    simp only [habitKey] at h4
    rw [hnone] at h4
    simp at h4
  · rfl

/-- Witness for C10: activity hours of 25 (outside (0, 24]) receive no bin. -/
theorem activity_bin_exclusion_witness : activityBin 25 = none :=
  activity_bin_exclusion.2.1 25 (Or.inr (by norm_num))

/-- C3: the pipeline yields no output (`st.stop()` after the warning) exactly
when the filtered view has zero records — so a non-empty view never signals
EmptyResult and every aggregation (KPI, scatter, choropleth, categorical,
trend) is computed for it, while an empty view skips them all; criteria with
an empty country selection always yield the empty signal. -/
theorem runPipeline_emptyResult (d : List Record) (c : FilterCriteria)
    (m : HealthMetric) (hb : Habit) :
    (runPipeline d c m hb = none ↔ filtered_data d c = []) ∧
    (c.countries = [] → runPipeline d c m hb = none) := by
  have hiff : runPipeline d c m hb = none ↔ filtered_data d c = [] := by
    simp only [runPipeline]
    split
    · rename_i h; simp_all [List.isEmpty_iff]
    · rename_i h; simp_all [List.isEmpty_iff]
  refine ⟨hiff, fun hc => hiff.mpr ?_⟩
  apply List.filter_eq_nil_iff.mpr
  intro a _
  simp [hc]

/-- Witness for C3: on the fixture dataset, deselecting every country stops
the pipeline with no outputs. -/
theorem runPipeline_emptyResult_witness :
    runPipeline fixtureData emptyCountriesCriteria .sleepHours .smoking = none :=
  (runPipeline_emptyResult fixtureData emptyCountriesCriteria
    .sleepHours .smoking).2 rfl

/-- C4: each KPI is the arithmetic mean (sum over count) of the corresponding
column of the view — coffee intake, sleep hours, the stress ordinal
(Low=1, Medium=2, High=3), BMI — rounded to 2 decimal places; on the
3-record fixture with all countries, all genders and age range 20-60, the
70-year-old drops out and the mean coffee intake KPI is exactly 4. -/
theorem kpi_means_fixture :
    stress_mapping .low = 1 ∧ stress_mapping .medium = 2 ∧
    stress_mapping .high = 3 ∧
    filtered_data fixtureData fixtureCriteria = [recUS1, recUS2] ∧
    (kpi (filtered_data fixtureData fixtureCriteria)).coffee = 4 ∧
    ∀ rs : List Record,
      (kpi rs).coffee = round2 ((rs.map (·.coffeeIntake)).sum /
        ((rs.map (·.coffeeIntake)).length : ℚ)) ∧
      (kpi rs).sleep = round2 ((rs.map (·.sleepHours)).sum /
        ((rs.map (·.sleepHours)).length : ℚ)) ∧
      (kpi rs).stress = round2 ((rs.map (fun r => stress_mapping r.stressLevel)).sum /
        ((rs.map (fun r => stress_mapping r.stressLevel)).length : ℚ)) ∧
      (kpi rs).bmi = round2 ((rs.map (·.bmi)).sum /
        ((rs.map (·.bmi)).length : ℚ)) := by
  refine ⟨rfl, rfl, rfl, rfl, ?_, fun rs => ⟨rfl, rfl, rfl, rfl⟩⟩
  have h : filtered_data fixtureData fixtureCriteria = [recUS1, recUS2] := rfl
  rw [h]
  norm_num [kpi, mean, round2, pyRound, recUS1, recUS2]

/-- C5: the choropleth data holds one entry per distinct country of the view —
the remapped name with the rounded mean coffee intake of that country's
records — and the name remap is exactly the three known aliases
(USA→United States, UK→United Kingdom, South Korea→Korea, Rep.) and the
identity on every other name. -/
theorem data_list_spec (rs : List Record) :
    (data_list rs).length = (rs.map (·.country)).dedup.length ∧
    (∀ c : String, c ∈ countryKeys rs ↔ ∃ r ∈ rs, r.country = c) ∧
    data_list rs = (countryKeys rs).map (fun c =>
      (country_name_map c,
        round2 (((rs.filter (fun r => r.country == c)).map (·.coffeeIntake)).sum /
          (((rs.filter (fun r => r.country == c)).map (·.coffeeIntake)).length : ℚ)))) ∧
    country_name_map "USA" = "United States" ∧
    country_name_map "UK" = "United Kingdom" ∧
    country_name_map "South Korea" = "Korea, Rep." ∧
    ∀ c : String, c = "USA" ∨ c = "UK" ∨ c = "South Korea" ∨
      country_name_map c = c := by
  refine ⟨?_, mem_countryKeys rs, ?_, rfl, rfl, rfl, ?_⟩
  · unfold data_list country_avg countryKeys
    rw [List.length_map, List.length_map, (List.perm_insertionSort _ _).length_eq]
  · unfold data_list country_avg
    rw [List.map_map]
    rfl
  · intro c
    by_cases h1 : c = "USA"
    · exact Or.inl h1
    by_cases h2 : c = "UK"
    · exact Or.inr (Or.inl h2)
    by_cases h3 : c = "South Korea"
    · exact Or.inr (Or.inr (Or.inl h3))
    refine Or.inr (Or.inr (Or.inr ?_))
    simp [country_name_map, h1, h2, h3]

/-- C6 counterexample: on a one-record view whose coffee intake is 0, the
observed maximum of the per-country means is 0, yet the colour-scale upper
bound is 1 — `float(... or 1)` replaces a falsy `0.0` by the default — so the
bounds do not always equal the observed minimum and maximum. -/
theorem max_val_zero_counterexample :
    ((country_avg [recCoffeeZero]).map Prod.snd).max? = some 0 ∧
    max_val [recCoffeeZero] = some 1 := by
  have h1 : (country_avg [recCoffeeZero]).map Prod.snd = [mean [0]] := rfl
  have h2 : mean [(0 : ℚ)] = 0 := by norm_num [mean]
  have h3 : (country_avg [recCoffeeZero]).map Prod.snd = [0] := by rw [h1, h2]
  constructor
  · rw [h3]; rfl
  · unfold max_val
    rw [h3]
    show pyOrFloat (some 0) 1 = some 1
    rw [pyOrFloat_some]
    simp

/-- C6 amended: for every non-empty view the colour-scale lower bound equals
the observed minimum of the per-country mean coffee intakes, and the upper
bound equals the observed maximum unless that maximum is 0, in which case the
bound is 1 (Python's `or` treats `0.0` as falsy); a view with no distinct
countries cannot reach this code, as empty views are stopped upstream. -/
theorem map_bounds_amended (rs : List Record) (h : rs ≠ []) :
    ∃ m M : ℚ,
      ((country_avg rs).map Prod.snd).min? = some m ∧
      ((country_avg rs).map Prod.snd).max? = some M ∧
      min_val rs = some m ∧
      max_val rs = some (if M = 0 then 1 else M) := by
  have hkeys := countryKeys_ne_nil rs h
  have hne : (country_avg rs).map Prod.snd ≠ [] := by
    unfold country_avg
    rw [List.map_map]
    intro hnil
    exact hkeys (List.map_eq_nil_iff.mp hnil)
  obtain ⟨m, hm⟩ : ∃ m, ((country_avg rs).map Prod.snd).min? = some m := by
    cases hmin : ((country_avg rs).map Prod.snd).min? with
    | none => exact absurd (List.min?_eq_none_iff.mp hmin) hne
    | some m => exact ⟨m, rfl⟩
  obtain ⟨M, hM⟩ : ∃ M, ((country_avg rs).map Prod.snd).max? = some M := by
    cases hmax : ((country_avg rs).map Prod.snd).max? with
    | none => exact absurd (List.max?_eq_none_iff.mp hmax) hne
    | some M => exact ⟨M, rfl⟩
  refine ⟨m, M, hm, hM, ?_, ?_⟩
  · unfold min_val
    rw [hm, pyOrFloat_some]
    split
    · rename_i h0; rw [h0]
    · rfl
  · unfold max_val
    rw [hM, pyOrFloat_some]
    split <;> simp_all

/-- Witness for the amended C6: the bounds of the one-record view `[recUS1]`
exist and satisfy the amended relation. -/
theorem map_bounds_amended_witness :
    ∃ m M : ℚ,
      ((country_avg [recUS1]).map Prod.snd).min? = some m ∧
      ((country_avg [recUS1]).map Prod.snd).max? = some M ∧
      min_val [recUS1] = some m ∧
      max_val [recUS1] = some (if M = 0 then 1 else M) :=
  map_bounds_amended [recUS1] (by simp)

/-- C7: the two trend series have one entry per distinct age of the view,
the x-axis ages are strictly ascending and are exactly the ages occurring in
the view, and each series value is the mean (coffee intake resp. sleep hours)
of the records of that age, rounded to 2 decimals. -/
theorem age_trend_spec (rs : List Record) :
    (trendCoffeeSeries rs).length = (rs.map (·.age)).dedup.length ∧
    (trendSleepSeries rs).length = (rs.map (·.age)).dedup.length ∧
    (trendAges rs).length = (rs.map (·.age)).dedup.length ∧
    (trendAges rs).Sorted (· < ·) ∧
    (∀ a : ℤ, a ∈ trendAges rs ↔ ∃ r ∈ rs, r.age = a) ∧
    trendCoffeeSeries rs = (ageKeys rs).map (fun a =>
      round2 (((rs.filter (fun r => r.age == a)).map (·.coffeeIntake)).sum /
        (((rs.filter (fun r => r.age == a)).map (·.coffeeIntake)).length : ℚ))) ∧
    trendSleepSeries rs = (ageKeys rs).map (fun a =>
      round2 (((rs.filter (fun r => r.age == a)).map (·.sleepHours)).sum /
        (((rs.filter (fun r => r.age == a)).map (·.sleepHours)).length : ℚ))) := by
  have hlen : (ageKeys rs).length = (rs.map (·.age)).dedup.length :=
    (List.perm_insertionSort _ _).length_eq
  refine ⟨?_, ?_, ?_, ?_, ?_, ?_, ?_⟩
  · unfold trendCoffeeSeries age_trend
    rw [List.length_map, List.length_map]
    exact hlen
  · unfold trendSleepSeries age_trend
    rw [List.length_map, List.length_map]
    exact hlen
  · rw [trendAges_eq_ageKeys]
    exact hlen
  · rw [trendAges_eq_ageKeys]
    exact ageKeys_sorted_lt rs
  · intro a
    rw [trendAges_eq_ageKeys]
    exact mem_ageKeys rs a
  · unfold trendCoffeeSeries age_trend
    rw [List.map_map]
    rfl
  · unfold trendSleepSeries age_trend
    rw [List.map_map]
    rfl

/-- C8: the scatter shaper is a pure per-record map — one point per record of
the view, in order, whose coordinates are (coffee intake, selected metric
value), whose label joins country and occupation, whose size hint is
`max(5, age/5)`, and whose colour depends only on gender (one colour for
Male, another for Female). -/
theorem scatter_data_spec (m : HealthMetric) (rs : List Record) :
    (scatter_data m rs).length = rs.length ∧
    ∀ i : ℕ, (scatter_data m rs)[i]? = (rs[i]?).map (fun r =>
      ⟨(r.coffeeIntake, metricValue m r),
       r.country ++ " / " ++ r.occupation,
       max 5 ((r.age : ℚ) / 5),
       if r.gender = "Male" then "#FF5722" else "#2196F3"⟩) := by
  constructor
  · simp [scatter_data]
  · intro i
    unfold scatter_data
    rw [List.getElem?_map]

end Coffee
